import Mathlib

/-!
Shallow embedding of the bgremover service (`src/app.py`), a Flask HTTP
service that removes image backgrounds via the external `rembg` library.

External effects (the `rembg` inference call, PIL decoding/encoding,
base64 decoding) are modelled as function parameters gathered in `Env`;
the filesystem output directory and the global `session` variable are
modelled as an explicit `AppState` threaded through the handlers.
Machine-level details (wall-clock timing, logging) are omitted: no claim
mentions them.
-/

namespace BgRemover

/-- Raw bytes (file contents, encoded images). -/
abbrev Bytes := List Nat

/-- A decoded RGBA image as produced by `Image.open(...).convert("RGBA")`. -/
abbrev Img := List Nat

/-- An inference-engine handle as returned by `rembg.new_session`.
`handleId` distinguishes distinct constructions of a handle. -/
structure Session where
  modelName : String
  handleId : Nat
deriving DecidableEq, Repr

/-- The mutable process state of `app.py`: the global `session` variable
(line 31), and the contents of `OUTPUT_DIR` as an association list from
file name to file contents (newest entry first, so a rewrite of the same
name shadows the old file).  `constructions` counts how many times
`new_session` has been invoked (instrumentation for the at-most-once
claim; the code itself has no such counter). -/
structure AppState where
  session : Option Session
  constructions : Nat
  outputs : List (String × Bytes)
deriving DecidableEq, Repr

/-- External collaborators of the service, modelled as parameters.
Each fallible call returns `Except String`, the error being the Python
exception message. -/
structure Env where
  new_session : String → Except String Session
  inference : Session → Bool → Nat → Nat → Nat → Bytes → Except String Bytes
  pilDecodeRGBA : Bytes → Except String Img
  encodePNG : Img → Except String Bytes
  encodeWEBP : Img → Nat → Except String Bytes
  b64decode : String → Except String Bytes
  b64encode : Bytes → String

/-- `MODEL_NAME = os.environ.get("REMBG_MODEL", "u2net")` (line 30). -/
def MODEL_NAME (envVar : Option String) : String := envVar.getD "u2net"

/-- `get_session` (lines 33-39): lazily constructs and caches the global
session.  On construction failure the global stays unset (the Python
assignment never happens). -/
def get_session (ns : String → Except String Session) (modelName : String)
    (st : AppState) : Except String Session × AppState :=
  match st.session with
  | some s => (.ok s, st)
  | none =>
    match ns modelName with
    | .error e => (.error e, st)
    | .ok s => (.ok s, { st with session := some s, constructions := st.constructions + 1 })

/-- Runs `get_session` for each requested name in turn, keeping only the
state (used to express that construction happens at most once across any
sequence of requests). -/
def runGetSessions (ns : String → Except String Session) (names : List String)
    (st : AppState) : AppState :=
  names.foldl (fun s n => (get_session ns n s).2) st

/-- Writing a file `name` with contents `bs` into `OUTPUT_DIR`
(`result_img.save(out_path, ...)`).  Prepending means a later write of the
same name shadows an earlier one, like a filesystem overwrite. -/
def saveOutput (st : AppState) (name : String) (bs : Bytes) : AppState :=
  { st with outputs := (name, bs) :: st.outputs }

/-- `os.path.exists` + read: the current contents of file `name` in
`OUTPUT_DIR`, if present. -/
def lookupOutput (outputs : List (String × Bytes)) (name : String) : Option Bytes :=
  (outputs.find? (fun p => p.1 == name)).map Prod.snd

/-- The value a parsed JSON request body can take, as far as this service
observes it.  `jnull` is Python `None`, which `request.get_json(silent=True,
force=True)` returns when the body is not valid JSON.  Dictionary values are
modelled as strings (the only values the service reads are the base64
`image` string and the `filename` string). -/
inductive PyJson where
  | jnull
  | jdict (entries : List (String × String))
  | jstr (s : String)
  | jlist (elems : List String)
  | jscalar
deriving DecidableEq, Repr

/-- Python substring test `sub in s` on strings. -/
def strContains (s sub : String) : Bool :=
  (List.range (s.length + 1)).any (fun i => (s.toList.drop i).take sub.length == sub.toList)

/-- Python `k in j` for a parsed JSON value: key membership for a dict,
substring for a string, element membership for a list, and a `TypeError`
for `None` and non-container scalars. -/
def pyContains (j : PyJson) (k : String) : Except String Bool :=
  match j with
  | .jnull => .error "TypeError: argument of type 'NoneType' is not iterable"
  | .jdict es => .ok (es.any (fun p => p.1 == k))
  | .jstr s => .ok (strContains s k)
  | .jlist xs => .ok (xs.contains k)
  | .jscalar => .error "TypeError: argument of type 'int' is not iterable"

/-- Python `j[k]` for a parsed JSON value (`data["image"]`, line 98). -/
def pyGetItem (j : PyJson) (k : String) : Except String String :=
  match j with
  | .jdict es =>
    match es.find? (fun p => p.1 == k) with
    | some p => .ok p.2
    | none => .error ("KeyError: " ++ k)
  | _ => .error "TypeError: indices must be integers"

/-- A `POST /remove` request: the optional multipart `file` field (its
bytes), whether the Content-Type is JSON (`request.is_json`), the parsed
JSON body, and the query string (`request.args`, first binding wins). -/
structure RemoveRequest where
  fileField : Option Bytes
  isJson : Bool
  jsonParsed : PyJson
  args : List (String × String)
deriving Repr

/-- `request.args.get(key, dflt)`: first binding of `key` in the query
string, or the default. -/
def args_get (args : List (String × String)) (key dflt : String) : String :=
  match args.find? (fun p => p.1 == key) with
  | some p => p.2
  | none => dflt

/-- Python `str.lower()` on one character (all values the service
compares against are ASCII). -/
def charLower (c : Char) : Char :=
  if 65 ≤ c.toNat ∧ c.toNat ≤ 90 then Char.ofNat (c.toNat + 32) else c

/-- Python `str.lower()`. -/
def strLower (s : String) : String := ⟨s.data.map charLower⟩

/-- `request.args.get(key, "false").lower() == "true"` (lines 104, 106). -/
def parseBoolArg (args : List (String × String)) (key : String) : Bool :=
  strLower (args_get args key "false") == "true"

/-- `request.args.get("format", "png").lower()` (line 105). -/
def parsedFormat (args : List (String × String)) : String :=
  strLower (args_get args "format" "png")

/-- Lines 89-101 of `remove_bg`: obtain the image bytes from the multipart
`file` field or from the base64 `image` field of a JSON body.
`.ok none` means neither source is present (the handler answers 400);
`.error` is an exception raised before the `try` block, hence uncaught
(`"image" in None`, a non-dict JSON value, or a bad base64 payload). -/
def obtainImage (env : Env) (req : RemoveRequest) : Except String (Option Bytes) :=
  match req.fileField with
  | some bs => .ok (some bs)
  | none =>
    if req.isJson then
      match pyContains req.jsonParsed "image" with
      | .error e => .error e
      | .ok true =>
        match pyGetItem req.jsonParsed "image" with
        | .error e => .error e
        | .ok v =>
          match env.b64decode v with
          | .error e => .error e
          | .ok bs => .ok (some bs)
      | .ok false => .ok none
    else .ok none

/-- The message of the 400 answer of `/remove` (line 101). -/
def errNoImage : String := "Envía una imagen como 'file' o en base64"

/-- A response of `POST /remove`: 400 / 500 JSON error bodies, the 200
JSON body of the `base64=true` path (lines 143-148), or the `send_file`
answer (lines 150-160). -/
inductive RemoveResp where
  | badRequest (error : String)
  | serverError (error : String)
  | inline (id filename image : String)
  | fileOut (mimetype : String) (contents : Bytes) (downloadName : String)
deriving DecidableEq, Repr

/-- The `try` block of `remove_bg` (lines 108-160), with the state threaded
so that side effects before an exception persist (the cached session, the
written output file).  An `.error` result is caught by line 162 and turned
into a 500 JSON body. -/
def tryBlock (env : Env) (modelCfg : String) (alpha_matting : Bool)
    (output_format : String) (return_base64 : Bool) (image_bytes : Bytes)
    (freshId : String) (st : AppState) : Except String RemoveResp × AppState :=
  match get_session env.new_session modelCfg st with
  | (.error e, st1) => (.error e, st1)
  | (.ok sess, st1) =>
    match env.inference sess alpha_matting 240 10 10 image_bytes with
    | .error e => (.error e, st1)
    | .ok result_bytes =>
      match env.pilDecodeRGBA result_bytes with
      | .error e => (.error e, st1)
      | .ok result_img =>
        let ext := if output_format == "webp" then "webp" else "png"
        let out_filename := freshId ++ "." ++ ext
        match (if ext == "webp" then env.encodeWEBP result_img 95
               else env.encodePNG result_img) with
        | .error e => (.error e, st1)
        | .ok encoded =>
          let st2 := saveOutput st1 out_filename encoded
          if return_base64 then
            match env.encodePNG result_img with
            | .error e => (.error e, st2)
            | .ok pngBytes =>
              (.ok (.inline freshId out_filename (env.b64encode pngBytes)), st2)
          else
            match (if ext == "webp" then env.encodeWEBP result_img 95
                   else env.encodePNG result_img) with
            | .error e => (.error e, st2)
            | .ok buf =>
              (.ok (.fileOut (if ext == "webp" then "image/webp" else "image/png")
                     buf out_filename), st2)

/-- The `POST /remove` handler (lines 70-164).  The outer `.error` is an
exception escaping the handler (raised before the `try` block), which the
framework turns into its default non-JSON 500 page. -/
def remove_bg (env : Env) (modelCfg : String) (req : RemoveRequest)
    (freshId : String) (st : AppState) : Except String (RemoveResp × AppState) :=
  match obtainImage env req with
  | .error e => .error e
  | .ok none => .ok (.badRequest errNoImage, st)
  | .ok (some image_bytes) =>
    let alpha_matting := parseBoolArg req.args "alpha_matting"
    let output_format := parsedFormat req.args
    let return_base64 := parseBoolArg req.args "base64"
    match tryBlock env modelCfg alpha_matting output_format return_base64
            image_bytes freshId st with
    | (.ok resp, st2) => .ok (resp, st2)
    | (.error e, st2) => .ok (.serverError e, st2)

/-- One uploaded file of a `POST /remove/batch` request. -/
structure BatchFile where
  filename : String
  contents : Bytes
deriving DecidableEq, Repr

/-- One entry of the batch `results` array: `status: "ok"` with its ids
(lines 194-201) or `status: "error"` with the message (lines 203-207).
The wall-clock `time` field is omitted. -/
inductive BatchEntry where
  | okEntry (original id filename download : String)
  | errEntry (original error : String)
deriving DecidableEq, Repr

/-- The `original` filename carried by a batch result entry. -/
def BatchEntry.original : BatchEntry → String
  | .okEntry o _ _ _ => o
  | .errEntry o _ => o

/-- Whether a batch result entry has `status: "ok"`. -/
def BatchEntry.isOk : BatchEntry → Bool
  | .okEntry _ _ _ _ => true
  | .errEntry _ _ => false

/-- A `POST /remove/batch` request: whether the multipart form has a
`files` field, and the uploaded files in order. -/
structure BatchRequest where
  hasFilesField : Bool
  files : List BatchFile
deriving Repr

/-- A response of `POST /remove/batch`. -/
inductive BatchResp where
  | badRequest (error : String)
  | okResp (processed : Nat) (results : List BatchEntry)
deriving DecidableEq, Repr

/-- The per-item `try` body of the batch loop (lines 182-207):
`remove(image_bytes, session=sess)` with rembg's defaults (no alpha
matting, thresholds 240/10/10), decode to RGBA, encode as PNG.  Returns
the result entry and, on success, the file written to `OUTPUT_DIR`. -/
def processItem (env : Env) (sess : Session) (f : BatchFile)
    (freshId : String) : BatchEntry × Option (String × Bytes) :=
  match env.inference sess false 240 10 10 f.contents with
  | .error e => (.errEntry f.filename e, none)
  | .ok result_bytes =>
    match env.pilDecodeRGBA result_bytes with
    | .error e => (.errEntry f.filename e, none)
    | .ok result_img =>
      match env.encodePNG result_img with
      | .error e => (.errEntry f.filename e, none)
      | .ok encoded =>
        let out_filename := freshId ++ ".png"
        (.okEntry f.filename freshId out_filename ("/download/" ++ freshId),
         some (out_filename, encoded))

/-- The result entry the batch loop produces for one file. -/
def entryOf (env : Env) (sess : Session) (f : BatchFile) (freshId : String) :
    BatchEntry :=
  (processItem env sess f freshId).1

/-- The batch loop (lines 180-207): files in order, item `i` getting the
fresh id `ids i`, each failure isolated to its own entry. -/
def processList (env : Env) (sess : Session) : List BatchFile → (Nat → String) →
    Nat → AppState → List BatchEntry × AppState
  | [], _, _, st => ([], st)
  | f :: rest, ids, i, st =>
    let (entry, write) := processItem env sess f (ids i)
    let st1 := match write with
      | some (name, bs) => saveOutput st name bs
      | none => st
    let (entries, st2) := processList env sess rest ids (i + 1) st1
    (entry :: entries, st2)

/-- The `POST /remove/batch` handler (lines 167-209).  `get_session` is
called once, before the loop and outside any `try`: the outer `.error` is
its construction failure escaping the handler uncaught. -/
def remove_bg_batch (env : Env) (modelCfg : String) (req : BatchRequest)
    (ids : Nat → String) (st : AppState) : Except String (BatchResp × AppState) :=
  if !req.hasFilesField then
    .ok (.badRequest "Envía imágenes en el campo 'files'", st)
  else if req.files.isEmpty then
    .ok (.badRequest "No se recibieron archivos", st)
  else
    match get_session env.new_session modelCfg st with
    | (.error e, _) => .error e
    | (.ok sess, st1) =>
      let (results, st2) := processList env sess req.files ids 0 st1
      .ok (.okResp results.length results, st2)

/-- A response of `GET /download/{id}`. -/
inductive DownloadResp where
  | fileResp (contents : Bytes)
  | notFound (error : String)
deriving DecidableEq, Repr

/-- The `GET /download/<file_id>` handler (lines 212-221): probe
`{id}.png` then `{id}.webp`, answer the first existing file, else a 404
JSON error body. -/
def download (file_id : String) (st : AppState) : DownloadResp :=
  match lookupOutput st.outputs (file_id ++ ".png") with
  | some bs => .fileResp bs
  | none =>
    match lookupOutput st.outputs (file_id ++ ".webp") with
    | some bs => .fileResp bs
    | none => .notFound "Archivo no encontrado"

/-! Concrete environments used to evaluate the handlers on closed inputs. -/

/-- An environment where every external call succeeds.  The PNG and WEBP
encoders are deliberately different so the stored format is observable. -/
def okEnv : Env where
  new_session m := .ok ⟨m, 0⟩
  inference _ _ _ _ _ bs := .ok bs
  pilDecodeRGBA bs := .ok bs
  encodePNG img := .ok (0 :: img)
  encodeWEBP img _ := .ok (1 :: img)
  b64decode s := .ok (s.toList.map Char.toNat)
  b64encode bs := toString bs

/-- An environment whose session construction fails (e.g. an unknown model
name whose weights cannot be loaded). -/
def failEnv : Env :=
  { okEnv with new_session := fun _ => .error "no model weights found" }

/-- An environment whose inference call rejects the empty input (playing
the role of a malformed image) and accepts everything else. -/
def pickyEnv : Env :=
  { okEnv with
    inference := fun _ _ _ _ _ bs =>
      if bs = [] then .error "cannot identify image file" else .ok bs }

/-- The whole per-item pipeline of the batch loop succeeds on this file:
inference, RGBA decoding and PNG encoding all return `.ok`. -/
def itemSucceeds (env : Env) (sess : Session) (f : BatchFile) : Prop :=
  ∃ rb img png, env.inference sess false 240 10 10 f.contents = .ok rb ∧
    env.pilDecodeRGBA rb = .ok img ∧ env.encodePNG img = .ok png

/-! Helper lemmas (shared infrastructure, used by several claims). -/

lemma args_get_cons_of_ne (k v key dflt : String) (args : List (String × String))
    (h : (k == key) = false) :
    args_get ((k, v) :: args) key dflt = args_get args key dflt := by
  simp only [args_get, List.find?]
  rw [h]

lemma string_append_assoc (a b c : String) : a ++ b ++ c = a ++ (b ++ c) := by
  apply String.ext
  simp [String.data_append]

lemma append_dot_png (a : String) : a ++ "." ++ "png" = a ++ ".png" := by
  rw [string_append_assoc]; rfl

lemma append_dot_webp (a : String) : a ++ "." ++ "webp" = a ++ ".webp" := by
  rw [string_append_assoc]; rfl

lemma beq_append_ne (a : String) {b c : String} (h : b.data ≠ c.data) :
    (a ++ b == a ++ c) = false := by
  cases hb : a ++ b == a ++ c
  · rfl
  · exfalso
    apply h
    have he : a ++ b = a ++ c := eq_of_beq hb
    have hd := congrArg String.data he
    rw [String.data_append, String.data_append] at hd
    exact List.append_cancel_left hd

lemma lookupOutput_save_self (st : AppState) (name : String) (bs : Bytes) :
    lookupOutput (saveOutput st name bs).outputs name = some bs := by
  simp [lookupOutput, saveOutput, List.find?]

lemma lookupOutput_save_other (st : AppState) (name name' : String) (bs : Bytes)
    (h : (name == name') = false) :
    lookupOutput (saveOutput st name bs).outputs name' = lookupOutput st.outputs name' := by
  simp only [lookupOutput, saveOutput, List.find?]
  rw [h]

lemma get_session_cached (ns : String → Except String Session) (m : String)
    (st : AppState) (s : Session) (h : st.session = some s) :
    get_session ns m st = (.ok s, st) := by
  simp [get_session, h]

lemma runGetSessions_cached (ns : String → Except String Session)
    (names : List String) (st : AppState) (s : Session) (h : st.session = some s) :
    runGetSessions ns names st = st := by
  induction names with
  | nil => rfl
  | cons n rest ih =>
    show runGetSessions ns rest (get_session ns n st).2 = st
    rw [get_session_cached ns n st s h]
    exact ih

/-- C1 helper: the state after one `get_session` call starting from an
uninitialized state has at most one construction on the books (and at most
one more than before in general). -/
lemma runGetSessions_le (ns : String → Except String Session) (names : List String) :
    ∀ st : AppState, st.session = none →
      (runGetSessions ns names st).constructions ≤ st.constructions + 1 := by
  induction names with
  | nil => intro st _; simp [runGetSessions]
  | cons n rest ih =>
    intro st h
    show (runGetSessions ns rest (get_session ns n st).2).constructions ≤ st.constructions + 1
    cases hns : ns n with
    | error e =>
      have : (get_session ns n st).2 = st := by simp [get_session, h, hns]
      rw [this]
      exact ih st h
    | ok s =>
      have h2 : (get_session ns n st).2
          = { st with session := some s, constructions := st.constructions + 1 } := by
        simp [get_session, h, hns]
      have h3 : runGetSessions ns rest
          ({ st with session := some s, constructions := st.constructions + 1 } : AppState)
          = { st with session := some s, constructions := st.constructions + 1 } :=
        runGetSessions_cached ns rest _ s rfl
      rw [h2, h3]

/-- C1: the inference-engine handle is a process-wide singleton:
once the global is set, every later `get_session` call — whatever model
name it would ask for — returns the cached handle unchanged; across any
sequence of calls starting from the uninitialized state at most one
construction happens; the first construction uses the configured model
name; and the response of `POST /remove` is unchanged by the per-request
`model` query parameter. -/
theorem c1_session_singleton (env : Env) (cfg : String) :
    (∀ (st : AppState) (s : Session) (m : String), st.session = some s →
      get_session env.new_session m st = (.ok s, st)) ∧
    (∀ (names : List String) (st : AppState), st.session = none →
      st.constructions = 0 →
      (runGetSessions env.new_session names st).constructions ≤ 1) ∧
    (∀ (st : AppState) (s : Session), st.session = none →
      env.new_session cfg = .ok s →
      get_session env.new_session cfg st
        = (.ok s, { st with session := some s, constructions := st.constructions + 1 })) ∧
    (∀ (req : RemoveRequest) (freshId : String) (st : AppState) (m₁ m₂ : String),
      remove_bg env cfg { req with args := ("model", m₁) :: req.args } freshId st
        = remove_bg env cfg { req with args := ("model", m₂) :: req.args } freshId st) := by
  refine ⟨fun st s m h => get_session_cached _ m st s h, ?_, ?_, ?_⟩
  · intro names st h h0
    have := runGetSessions_le env.new_session names st h
    omega
  · intro st s h hns
    simp [get_session, h, hns]
  · intro req freshId st m₁ m₂
    simp only [remove_bg, obtainImage, parseBoolArg, parsedFormat]
    rw [args_get_cons_of_ne "model" m₁ "alpha_matting" _ _ rfl,
      args_get_cons_of_ne "model" m₁ "format" _ _ rfl,
      args_get_cons_of_ne "model" m₁ "base64" _ _ rfl,
      args_get_cons_of_ne "model" m₂ "alpha_matting" _ _ rfl,
      args_get_cons_of_ne "model" m₂ "format" _ _ rfl,
      args_get_cons_of_ne "model" m₂ "base64" _ _ rfl]

/-- Witness for C1 at a concrete environment, cached state and requests. -/
theorem c1_session_singleton_witness :
    get_session okEnv.new_session "u2netp" ⟨some ⟨"u2net", 7⟩, 1, []⟩
      = (.ok ⟨"u2net", 7⟩, ⟨some ⟨"u2net", 7⟩, 1, []⟩) ∧
    (runGetSessions okEnv.new_session ["u2net", "u2netp", "silueta"]
      ⟨none, 0, []⟩).constructions ≤ 1 ∧
    remove_bg okEnv "u2net" ⟨some [1, 2], false, .jnull, [("model", "u2netp")]⟩
        "aaaa0000" ⟨none, 0, []⟩
      = remove_bg okEnv "u2net" ⟨some [1, 2], false, .jnull, [("model", "silueta")]⟩
        "aaaa0000" ⟨none, 0, []⟩ := by
  refine ⟨(c1_session_singleton okEnv "u2net").1 _ _ _ rfl,
    (c1_session_singleton okEnv "u2net").2.1 _ _ rfl rfl, ?_⟩
  exact (c1_session_singleton okEnv "u2net").2.2.2
    ⟨some [1, 2], false, .jnull, []⟩ "aaaa0000" ⟨none, 0, []⟩ "u2netp" "silueta"

/-- C9: a boolean request parameter of `POST /remove` parses to `true`
exactly when its raw value, lowercased, is the string `"true"`; when the
key is absent from the query string the result is `false`. -/
theorem c9_bool_param_parsing (key v : String) (rest args : List (String × String)) :
    (parseBoolArg ((key, v) :: rest) key = (strLower v == "true")) ∧
    (args.find? (fun p => p.1 == key) = none → parseBoolArg args key = false) := by
  constructor
  · simp [parseBoolArg, args_get, List.find?]
  · intro h
    simp only [parseBoolArg, args_get, h]
    decide

/-- Witness for C9: `"1"`, `"yes"`, `"True "` and absence all parse to
`false`; `"TRUE"` parses to `true`. -/
theorem c9_bool_param_parsing_witness :
    parseBoolArg [("base64", "1")] "base64" = false ∧
    parseBoolArg [("base64", "yes")] "base64" = false ∧
    parseBoolArg [("alpha_matting", "True ")] "alpha_matting" = false ∧
    parseBoolArg [("alpha_matting", "TRUE")] "alpha_matting" = true ∧
    parseBoolArg [("format", "webp")] "base64" = false := by
  refine ⟨?_, ?_, ?_, ?_, ?_⟩
  · rw [(c9_bool_param_parsing "base64" "1" [] []).1]; decide
  · rw [(c9_bool_param_parsing "base64" "yes" [] []).1]; decide
  · rw [(c9_bool_param_parsing "alpha_matting" "True " [] []).1]; decide
  · rw [(c9_bool_param_parsing "alpha_matting" "TRUE" [] []).1]; decide
  · exact (c9_bool_param_parsing "x" "y" [] [("format", "webp")]).2 rfl

/-- C10: in `POST /remove/batch` the session is obtained once, before the
per-file loop and outside any `try`: if the handle has never been built
and its construction fails, the whole request dies with an uncaught
exception (`.error`), producing no per-item results. -/
theorem c10_batch_session_uncaught (env : Env) (cfg : String) (req : BatchRequest)
    (ids : Nat → String) (st : AppState) (e : String)
    (hff : req.hasFilesField = true) (hne : req.files ≠ [])
    (hs : st.session = none) (hns : env.new_session cfg = .error e) :
    remove_bg_batch env cfg req ids st = .error e := by
  have hemp : req.files.isEmpty = false := by
    cases hf : req.files with
    | nil => exact absurd hf hne
    | cons a l => rfl
  simp [remove_bg_batch, hff, hemp, get_session, hs, hns]

/-- Witness for C10 at a concrete failing environment. -/
theorem c10_batch_session_uncaught_witness :
    remove_bg_batch failEnv "u2net" ⟨true, [⟨"a.png", [1]⟩, ⟨"b.png", [2]⟩]⟩
      (fun _ => "aaaa0000") ⟨none, 0, []⟩ = .error "no model weights found" :=
  c10_batch_session_uncaught failEnv "u2net" _ _ _ _ rfl (by simp) rfl rfl

/-- C6: `GET /download/{id}` probes `{id}.png` first and `{id}.webp`
second, returns the first existing file's contents, and answers a 404
JSON error body when neither exists. -/
theorem c6_download_probe_order (st : AppState) (id : String) :
    (∀ b, lookupOutput st.outputs (id ++ ".png") = some b →
      download id st = .fileResp b) ∧
    (lookupOutput st.outputs (id ++ ".png") = none →
      ∀ b, lookupOutput st.outputs (id ++ ".webp") = some b →
        download id st = .fileResp b) ∧
    (lookupOutput st.outputs (id ++ ".png") = none →
      lookupOutput st.outputs (id ++ ".webp") = none →
      download id st = .notFound "Archivo no encontrado") := by
  refine ⟨?_, ?_, ?_⟩
  · intro b h; simp [download, h]
  · intro h b h2; simp [download, h, h2]
  · intro h h2; simp [download, h, h2]

/-- Witness for C6: with both extensions present the `.png` contents win;
an unknown id gets the 404 body. -/
theorem c6_download_probe_order_witness :
    download "aaaa0000" ⟨none, 0, [("aaaa0000.webp", [9]), ("aaaa0000.png", [7])]⟩
      = .fileResp [7] ∧
    download "bbbb1111" ⟨none, 0, [("aaaa0000.webp", [9]), ("aaaa0000.png", [7])]⟩
      = .notFound "Archivo no encontrado" :=
  ⟨(c6_download_probe_order ⟨none, 0, [("aaaa0000.webp", [9]), ("aaaa0000.png", [7])]⟩
      "aaaa0000").1 [7] rfl,
   (c6_download_probe_order ⟨none, 0, [("aaaa0000.webp", [9]), ("aaaa0000.png", [7])]⟩
      "bbbb1111").2.2 rfl rfl⟩

/-- C5 counterexample: a `POST /remove` whose Content-Type is JSON but
whose body is not valid JSON carries neither a `file` field nor a JSON
`image` field, yet the handler evaluates `"image" in None` before the
`try` block and dies with an uncaught TypeError: the framework answers
its default (non-JSON) 500 page, not the claimed 400 JSON body. -/
theorem c5_counterexample :
    remove_bg okEnv "u2net" ⟨none, true, .jnull, []⟩ "aaaa0000" ⟨none, 0, []⟩
      = .error "TypeError: argument of type 'NoneType' is not iterable" := rfl

/-- C5 amended: a `POST /remove` with no `file` field answers 400 with a
JSON error body provided the Content-Type is not JSON, or the JSON body
parses to a container in which the membership test for `"image"` is
false; an unparseable or non-container JSON body instead raises an
uncaught TypeError (the framework's default 500, not a JSON body). -/
theorem c5_missing_input_400 (env : Env) (cfg : String) (req : RemoveRequest)
    (freshId : String) (st : AppState)
    (hfile : req.fileField = none)
    (h : req.isJson = false ∨ pyContains req.jsonParsed "image" = .ok false) :
    remove_bg env cfg req freshId st = .ok (.badRequest errNoImage, st) := by
  rcases h with h | h
  · simp [remove_bg, obtainImage, hfile, h]
  · cases hj : req.isJson <;> simp [remove_bg, obtainImage, hfile, h, hj]

/-- Witness for the amended C5: a JSON object body without `image`, and a
plain request with no body at all, both answer the 400 JSON error. -/
theorem c5_missing_input_400_witness :
    remove_bg okEnv "u2net" ⟨none, true, .jdict [("filename", "x.png")], []⟩
      "aaaa0000" ⟨none, 0, []⟩ = .ok (.badRequest errNoImage, ⟨none, 0, []⟩) ∧
    remove_bg okEnv "u2net" ⟨none, false, .jnull, []⟩
      "aaaa0000" ⟨none, 0, []⟩ = .ok (.badRequest errNoImage, ⟨none, 0, []⟩) :=
  ⟨c5_missing_input_400 okEnv "u2net" ⟨none, true, .jdict [("filename", "x.png")], []⟩
      "aaaa0000" ⟨none, 0, []⟩ rfl (Or.inr rfl),
   c5_missing_input_400 okEnv "u2net" ⟨none, false, .jnull, []⟩
      "aaaa0000" ⟨none, 0, []⟩ rfl (Or.inl rfl)⟩

/-- C4: any `format` value other than `webp` (after lowercasing),
including unrecognized ones, silently falls back to PNG: the stored file
is `{id}.png` with the PNG encoding, and the request succeeds (it is not
rejected). -/
theorem c4_format_fallback (env : Env) (cfg : String) (req : RemoveRequest)
    (freshId : String) (st : AppState) (bs rb : Bytes) (img : Img) (png : Bytes)
    (s : Session)
    (hobt : obtainImage env req = .ok (some bs))
    (hfmt : parsedFormat req.args ≠ "webp")
    (hs : st.session = some s)
    (hinf : env.inference s (parseBoolArg req.args "alpha_matting") 240 10 10 bs
      = .ok rb)
    (hdec : env.pilDecodeRGBA rb = .ok img)
    (hpng : env.encodePNG img = .ok png) :
    remove_bg env cfg req freshId st
      = .ok ((if parseBoolArg req.args "base64" then
                RemoveResp.inline freshId (freshId ++ ".png") (env.b64encode png)
              else RemoveResp.fileOut "image/png" png (freshId ++ ".png")),
             saveOutput st (freshId ++ ".png") png) := by
  have hb : (parsedFormat req.args == "webp") = false := by
    cases hb : parsedFormat req.args == "webp"
    · rfl
    · exact absurd (eq_of_beq hb) hfmt
  simp only [remove_bg, hobt, tryBlock, get_session_cached env.new_session cfg st s hs,
    hinf, hdec, hb, Bool.false_eq_true, if_neg, ite_false, hpng]
  rw [append_dot_png]
  cases hrb : parseBoolArg req.args "base64" <;> simp [hpng]

/-- Witness for C4: an unrecognized `format=GIF` still produces a PNG
file response and a `.png` entry in the store. -/
theorem c4_format_fallback_witness :
    remove_bg okEnv "u2net" ⟨some [5], false, .jnull, [("format", "GIF")]⟩ "cccc2222"
      ⟨some ⟨"u2net", 0⟩, 1, []⟩
      = .ok (.fileOut "image/png" [0, 5] "cccc2222.png",
             ⟨some ⟨"u2net", 0⟩, 1, [("cccc2222.png", [0, 5])]⟩) := by
  rw [c4_format_fallback okEnv "u2net" ⟨some [5], false, .jnull, [("format", "GIF")]⟩
    "cccc2222" ⟨some ⟨"u2net", 0⟩, 1, []⟩ [5] [5] [5] [0, 5] ⟨"u2net", 0⟩
    rfl (by decide) rfl rfl rfl rfl]
  rfl

/-- C7 counterexample: a batch request over one valid file whose first-ever
session construction fails dies with an uncaught exception (`.error`):
the framework's default 500 page, which carries no JSON `error` body — so
not every failure of every endpoint returns a JSON error body. -/
theorem c7_counterexample :
    remove_bg_batch failEnv "bad-model" ⟨true, [⟨"a.png", [1, 2, 3]⟩]⟩
      (fun _ => "aaaa0000") ⟨none, 0, []⟩ = .error "no model weights found" := rfl

/-- C7 amended: every failure handled by the endpoints' own error paths
returns a JSON body with a human-readable `error` string — once `/remove`
has obtained its input, the handler always produces a response (every
processing failure is caught as a 500 JSON body); `/remove/batch` with a
cached session always produces a response; `/download` always produces a
file or the 404 JSON body.  Failures escaping the handlers (session
construction in the batch endpoint, the pre-`try` TypeError and
base64-decode errors of `/remove`) are exceptions: they yield the
framework's default non-JSON 500. -/
theorem c7_json_error_bodies (env : Env) (cfg : String) (req : RemoveRequest)
    (breq : BatchRequest) (ids : Nat → String) (freshId fid : String)
    (st : AppState) (r : Option Bytes) (s : Session)
    (hobt : obtainImage env req = .ok r) (hs : st.session = some s) :
    (∃ resp st', remove_bg env cfg req freshId st = .ok (resp, st')) ∧
    (∃ bresp st', remove_bg_batch env cfg breq ids st = .ok (bresp, st')) ∧
    (download fid st = .notFound "Archivo no encontrado" ∨
      ∃ b, download fid st = .fileResp b) := by
  refine ⟨?_, ?_, ?_⟩
  · cases r with
    | none => exact ⟨.badRequest errNoImage, st, by simp [remove_bg, hobt]⟩
    | some bs =>
      rcases htb : tryBlock env cfg (parseBoolArg req.args "alpha_matting")
          (parsedFormat req.args) (parseBoolArg req.args "base64") bs freshId st
        with ⟨er, st2⟩
      cases er with
      | ok resp => exact ⟨resp, st2, by simp [remove_bg, hobt, htb]⟩
      | error e => exact ⟨.serverError e, st2, by simp [remove_bg, hobt, htb]⟩
  · by_cases hff : breq.hasFilesField = true
    · cases hemp : breq.files.isEmpty with
      | true =>
        exact ⟨.badRequest "No se recibieron archivos", st,
          by simp [remove_bg_batch, hff, hemp]⟩
      | false =>
        rcases hpl : processList env s breq.files ids 0 st with ⟨results, st2⟩
        exact ⟨.okResp results.length results, st2,
          by simp [remove_bg_batch, hff, hemp,
            get_session_cached env.new_session cfg st s hs, hpl]⟩
    · refine ⟨.badRequest "Envía imágenes en el campo 'files'", st, ?_⟩
      have hff2 : breq.hasFilesField = false := by
        cases h2 : breq.hasFilesField
        · rfl
        · exact absurd h2 hff
      simp [remove_bg_batch, hff2]
  · cases h1 : lookupOutput st.outputs (fid ++ ".png") with
    | some b => exact Or.inr ⟨b, by simp [download, h1]⟩
    | none =>
      cases h2 : lookupOutput st.outputs (fid ++ ".webp") with
      | some b => exact Or.inr ⟨b, by simp [download, h1, h2]⟩
      | none => exact Or.inl (by simp [download, h1, h2])

/-- Witness for the amended C7 at concrete failing inputs: a decode
failure in `/remove` (caught as a 500 JSON body), a batch over a
malformed file, and an unknown download id. -/
theorem c7_json_error_bodies_witness :
    (∃ resp st', remove_bg pickyEnv "u2net" ⟨some [], false, .jnull, []⟩ "aaaa0000"
      ⟨some ⟨"u2net", 0⟩, 1, []⟩ = .ok (resp, st')) ∧
    (∃ bresp st', remove_bg_batch pickyEnv "u2net" ⟨true, [⟨"bad.bin", []⟩]⟩
      (fun _ => "bbbb1111") ⟨some ⟨"u2net", 0⟩, 1, []⟩ = .ok (bresp, st')) ∧
    (download "cccc2222" ⟨some ⟨"u2net", 0⟩, 1, []⟩
        = .notFound "Archivo no encontrado" ∨
      ∃ b, download "cccc2222" ⟨some ⟨"u2net", 0⟩, 1, []⟩ = .fileResp b) :=
  c7_json_error_bodies pickyEnv "u2net" ⟨some [], false, .jnull, []⟩
    ⟨true, [⟨"bad.bin", []⟩]⟩ (fun _ => "bbbb1111") "aaaa0000" "cccc2222"
    ⟨some ⟨"u2net", 0⟩, 1, []⟩ (some []) ⟨"u2net", 0⟩ rfl rfl

/-- C8 counterexample: a `POST /remove` whose JSON body carries
`format: "webp"`, `base64: "true"`, `alpha_matting: "true"` and
`model: "u2netp"` but an empty query string is processed with the
defaults — a PNG file response, not an inline webp — because the handler
reads the options only from `request.args`, never from the JSON body
(and never reads `model` at all). -/
theorem c8_counterexample :
    remove_bg okEnv "u2net"
      ⟨none, true, .jdict [("image", "hi"), ("format", "webp"), ("base64", "true"),
        ("alpha_matting", "true"), ("model", "u2netp")], []⟩
      "dddd3333" ⟨some ⟨"u2net", 0⟩, 1, []⟩
      = .ok (.fileOut "image/png" [0, 104, 105] "dddd3333.png",
             ⟨some ⟨"u2net", 0⟩, 1, [("dddd3333.png", [0, 104, 105])]⟩) := rfl

/-- C8 amended: the processing options `alpha_matting`, `format` and
`base64` are read only from the query string, with the stated defaults
when absent there; fields of the JSON request body never influence them
(here: with a multipart file the body is not read at all; the
counterexample covers the JSON-input mode), and `model` is read from
neither source. -/
theorem c8_options_query_only (env : Env) (cfg freshId : String) (st : AppState)
    (bs : Bytes) (args : List (String × String)) (isJ isJ' : Bool) (j j' : PyJson) :
    remove_bg env cfg ⟨some bs, isJ, j, []⟩ freshId st
      = remove_bg env cfg ⟨some bs, isJ, j,
          [("alpha_matting", "false"), ("format", "png"), ("base64", "false")]⟩
          freshId st ∧
    remove_bg env cfg ⟨some bs, isJ, j, args⟩ freshId st
      = remove_bg env cfg ⟨some bs, isJ', j', args⟩ freshId st := by
  exact ⟨rfl, rfl⟩

/-! Lemmas about the batch loop: the produced entries neither depend on
the threaded state nor on each other. -/

lemma entryOf_original (env : Env) (sess : Session) (f : BatchFile) (fid : String) :
    (entryOf env sess f fid).original = f.filename := by
  rcases h1 : env.inference sess false 240 10 10 f.contents with e | rb
  · simp [entryOf, processItem, h1, BatchEntry.original]
  · rcases h2 : env.pilDecodeRGBA rb with e | img
    · simp [entryOf, processItem, h1, h2, BatchEntry.original]
    · rcases h3 : env.encodePNG img with e | enc
      · simp [entryOf, processItem, h1, h2, h3, BatchEntry.original]
      · simp [entryOf, processItem, h1, h2, h3, BatchEntry.original]

lemma entryOf_err (env : Env) (sess : Session) (f : BatchFile) (fid msg : String)
    (h : env.inference sess false 240 10 10 f.contents = .error msg) :
    entryOf env sess f fid = .errEntry f.filename msg := by
  simp [entryOf, processItem, h]

lemma entryOf_isOk (env : Env) (sess : Session) (f : BatchFile) (fid : String)
    (h : itemSucceeds env sess f) : (entryOf env sess f fid).isOk = true := by
  obtain ⟨rb, img, png, h1, h2, h3⟩ := h
  simp [entryOf, processItem, h1, h2, h3, BatchEntry.isOk]

lemma processList_length (env : Env) (sess : Session) (fs : List BatchFile) :
    ∀ (ids : Nat → String) (i : Nat) (st : AppState),
      (processList env sess fs ids i st).1.length = fs.length := by
  induction fs with
  | nil => intro ids i st; rfl
  | cons f rest ih =>
    intro ids i st
    simp only [processList]
    rcases hpi : processItem env sess f (ids i) with ⟨entry, write⟩
    simp only [hpi]
    cases write with
    | none => simp [ih]
    | some p => simp [ih]

lemma processList_getElem (env : Env) (sess : Session) (fs : List BatchFile) :
    ∀ (ids : Nat → String) (i j : Nat) (st : AppState) (h : j < fs.length),
      (processList env sess fs ids i st).1[j]?
        = some (entryOf env sess (fs.get ⟨j, h⟩) (ids (i + j))) := by
  induction fs with
  | nil => intro ids i j st h; exact absurd h (by simp)
  | cons f rest ih =>
    intro ids i j st h
    simp only [processList]
    rcases hpi : processItem env sess f (ids i) with ⟨entry, write⟩
    simp only [hpi]
    cases j with
    | zero =>
      cases write with
      | none => simp [entryOf, hpi]
      | some p => simp [entryOf, hpi]
    | succ j' =>
      have h' : j' < rest.length := by simpa using Nat.lt_of_succ_lt_succ h
      have harith : i + (j' + 1) = (i + 1) + j' := by omega
      cases write with
      | none =>
        simp only [List.getElem?_cons_succ, List.get]
        rw [harith]
        exact ih ids (i + 1) j' st h'
      | some p =>
        simp only [List.getElem?_cons_succ, List.get]
        rw [harith]
        exact ih ids (i + 1) j' (saveOutput st p.1 p.2) h'

/-- C2: a batch over N files in which file k (1-indexed) fails inference
and every other file goes through the whole per-item pipeline yields
exactly N results in input order — `processed` equal to N, entry k being
`status: "error"` with the message, all other entries `status: "ok"` —
so one bad item neither aborts nor affects the rest. -/
theorem c2_batch_isolation (env : Env) (cfg : String) (req : BatchRequest)
    (ids : Nat → String) (st : AppState) (s : Session) (k : Nat) (msg : String)
    (hs : st.session = some s)
    (hff : req.hasFilesField = true)
    (hk1 : 1 ≤ k) (hkN : k ≤ req.files.length)
    (hbad : ∀ (h : k - 1 < req.files.length),
      env.inference s false 240 10 10 (req.files.get ⟨k - 1, h⟩).contents
        = .error msg)
    (hok : ∀ j (h : j < req.files.length), j ≠ k - 1 →
      itemSucceeds env s (req.files.get ⟨j, h⟩)) :
    ∃ results st',
      remove_bg_batch env cfg req ids st = .ok (.okResp results.length results, st') ∧
      results.length = req.files.length ∧
      (∀ j (h : j < req.files.length), ∃ e, results[j]? = some e ∧
        e.original = (req.files.get ⟨j, h⟩).filename ∧
        (j = k - 1 → e = .errEntry (req.files.get ⟨j, h⟩).filename msg) ∧
        (j ≠ k - 1 → e.isOk = true)) := by
  have hemp : req.files.isEmpty = false := by
    cases hf : req.files with
    | nil => rw [hf] at hkN; simp at hkN; omega
    | cons a l => rfl
  rcases hpl : processList env s req.files ids 0 st with ⟨results, st2⟩
  refine ⟨results, st2, ?_, ?_, ?_⟩
  · simp [remove_bg_batch, hff, hemp, get_session_cached env.new_session cfg st s hs,
      hpl]
  · have := processList_length env s req.files ids 0 st
    rw [hpl] at this
    exact this
  · intro j h
    have hg := processList_getElem env s req.files ids 0 j st h
    rw [hpl] at hg
    simp only [Nat.zero_add] at hg
    refine ⟨entryOf env s (req.files.get ⟨j, h⟩) (ids j), hg,
      entryOf_original env s _ _, ?_, ?_⟩
    · intro hj
      subst hj
      exact entryOf_err env s _ _ msg (hbad h)
    · intro hj
      exact entryOf_isOk env s _ _ (hok j h hj)

/-- Witness for C2: two files, the second (k = 2) malformed: two results
in order, the first `ok`, the second `error`. -/
theorem c2_batch_isolation_witness :
    ∃ results st',
      remove_bg_batch pickyEnv "u2net" ⟨true, [⟨"a.png", [1]⟩, ⟨"bad.bin", []⟩]⟩
        (fun n => toString n) ⟨some ⟨"u2net", 0⟩, 1, []⟩
        = .ok (.okResp results.length results, st') ∧
      results.length = ([⟨"a.png", [1]⟩, ⟨"bad.bin", []⟩] : List BatchFile).length ∧
      (∀ j (h : j < ([⟨"a.png", [1]⟩, ⟨"bad.bin", []⟩] : List BatchFile).length),
        ∃ e, results[j]? = some e ∧
        e.original
          = (([⟨"a.png", [1]⟩, ⟨"bad.bin", []⟩] : List BatchFile).get ⟨j, h⟩).filename ∧
        (j = 2 - 1 → e = .errEntry
          (([⟨"a.png", [1]⟩, ⟨"bad.bin", []⟩] : List BatchFile).get ⟨j, h⟩).filename
          "cannot identify image file") ∧
        (j ≠ 2 - 1 → e.isOk = true)) := by
  refine c2_batch_isolation pickyEnv "u2net" ⟨true, [⟨"a.png", [1]⟩, ⟨"bad.bin", []⟩]⟩
    (fun n => toString n) ⟨some ⟨"u2net", 0⟩, 1, []⟩ ⟨"u2net", 0⟩ 2
    "cannot identify image file" rfl rfl (by omega) (by simp) (fun h => rfl) ?_
  intro j h hj
  match j, h with
  | 0, _ => exact ⟨[1], [1], [0, 1], rfl, rfl, rfl⟩
  | 1, _ => exact absurd rfl hj

/-- C3: a successful `POST /remove` leaves `{id}.{format}` in the Output
Store before answering; a subsequent `GET /download/{id}` (the id being
fresh) returns exactly the stored bytes; the inline (`base64=true`)
payload is always the base64 of the PNG re-encoding regardless of the
requested format; and for `format=png` the stored bytes are that same PNG
encoding, so the downloaded content is byte-identical to the decoded
inline payload. -/
theorem c3_persist_and_inline (env : Env) (cfg : String) (req : RemoveRequest)
    (freshId : String) (st : AppState) (bs rb : Bytes) (img : Img)
    (png webp : Bytes) (s : Session)
    (hobt : obtainImage env req = .ok (some bs))
    (hs : st.session = some s)
    (hinf : env.inference s (parseBoolArg req.args "alpha_matting") 240 10 10 bs
      = .ok rb)
    (hdec : env.pilDecodeRGBA rb = .ok img)
    (hpng : env.encodePNG img = .ok png)
    (hwebp : env.encodeWEBP img 95 = .ok webp)
    (hfresh1 : lookupOutput st.outputs (freshId ++ ".png") = none)
    (hfresh2 : lookupOutput st.outputs (freshId ++ ".webp") = none) :
    ∃ resp st' ext stored,
      remove_bg env cfg req freshId st = .ok (resp, st') ∧
      ext = (if parsedFormat req.args == "webp" then "webp" else "png") ∧
      stored = (if parsedFormat req.args == "webp" then webp else png) ∧
      lookupOutput st'.outputs (freshId ++ "." ++ ext) = some stored ∧
      download freshId st' = .fileResp stored ∧
      (parseBoolArg req.args "base64" = true →
        resp = .inline freshId (freshId ++ "." ++ ext) (env.b64encode png)) ∧
      (parsedFormat req.args ≠ "webp" → stored = png) := by
  have hpw : (("png" : String) == "webp") = false := by decide
  have hww : (("webp" : String) == "webp") = true := by decide
  have hwebpng : (freshId ++ ".webp" == freshId ++ ".png") = false :=
    beq_append_ne freshId (by decide)
  cases hw : parsedFormat req.args == "webp" with
  | false =>
    cases hb : parseBoolArg req.args "base64" with
    | false =>
      refine ⟨.fileOut "image/png" png (freshId ++ "." ++ "png"),
        saveOutput st (freshId ++ "." ++ "png") png, "png", png,
        ?_, rfl, rfl, lookupOutput_save_self _ _ _, ?_,
        fun hcontra => absurd hcontra Bool.false_ne_true, fun _ => rfl⟩
      · simp only [remove_bg, hobt, tryBlock,
          get_session_cached env.new_session cfg st s hs, hinf, hdec, hw, hb]
        simp [hpng, hwebp, hpw, hww]
      · rw [append_dot_png]
        simp [download, lookupOutput_save_self]
    | true =>
      refine ⟨.inline freshId (freshId ++ "." ++ "png") (env.b64encode png),
        saveOutput st (freshId ++ "." ++ "png") png, "png", png,
        ?_, rfl, rfl, lookupOutput_save_self _ _ _, ?_,
        fun _ => rfl, fun _ => rfl⟩
      · simp only [remove_bg, hobt, tryBlock,
          get_session_cached env.new_session cfg st s hs, hinf, hdec, hw, hb]
        simp [hpng, hwebp, hpw, hww]
      · rw [append_dot_png]
        simp [download, lookupOutput_save_self]
  | true =>
    cases hb : parseBoolArg req.args "base64" with
    | false =>
      refine ⟨.fileOut "image/webp" webp (freshId ++ "." ++ "webp"),
        saveOutput st (freshId ++ "." ++ "webp") webp, "webp", webp,
        ?_, rfl, rfl, lookupOutput_save_self _ _ _, ?_,
        fun hcontra => absurd hcontra Bool.false_ne_true,
        fun h => absurd (eq_of_beq hw) h⟩
      · simp only [remove_bg, hobt, tryBlock,
          get_session_cached env.new_session cfg st s hs, hinf, hdec, hw, hb]
        simp [hpng, hwebp, hpw, hww]
      · rw [append_dot_webp]
        simp [download, lookupOutput_save_other _ _ _ _ hwebpng, hfresh1,
          lookupOutput_save_self]
    | true =>
      refine ⟨.inline freshId (freshId ++ "." ++ "webp") (env.b64encode png),
        saveOutput st (freshId ++ "." ++ "webp") webp, "webp", webp,
        ?_, rfl, rfl, lookupOutput_save_self _ _ _, ?_,
        fun _ => rfl, fun h => absurd (eq_of_beq hw) h⟩
      · simp only [remove_bg, hobt, tryBlock,
          get_session_cached env.new_session cfg st s hs, hinf, hdec, hw, hb]
        simp [hpng, hwebp, hpw, hww]
      · rw [append_dot_webp]
        simp [download, lookupOutput_save_other _ _ _ _ hwebpng, hfresh1,
          lookupOutput_save_self]

/-- Witness for C3: a fresh id, `format=WebP`, `base64=true`, everything
succeeding: the `.webp` file is stored and downloadable, and the inline
payload is the PNG re-encoding. -/
theorem c3_persist_and_inline_witness :
    ∃ resp st' ext stored,
      remove_bg okEnv "u2net"
        ⟨some [3], false, .jnull, [("format", "WebP"), ("base64", "true")]⟩
        "ffff5555" ⟨some ⟨"u2net", 0⟩, 1, []⟩ = .ok (resp, st') ∧
      ext = (if parsedFormat [("format", "WebP"), ("base64", "true")] == "webp"
             then "webp" else "png") ∧
      stored = (if parsedFormat [("format", "WebP"), ("base64", "true")] == "webp"
                then [1, 3] else [0, 3]) ∧
      lookupOutput st'.outputs ("ffff5555" ++ "." ++ ext) = some stored ∧
      download "ffff5555" st' = .fileResp stored ∧
      (parseBoolArg [("format", "WebP"), ("base64", "true")] "base64" = true →
        resp = .inline "ffff5555" ("ffff5555" ++ "." ++ ext) (okEnv.b64encode [0, 3])) ∧
      (parsedFormat [("format", "WebP"), ("base64", "true")] ≠ "webp" →
        stored = [0, 3]) :=
  c3_persist_and_inline okEnv "u2net"
    ⟨some [3], false, .jnull, [("format", "WebP"), ("base64", "true")]⟩
    "ffff5555" ⟨some ⟨"u2net", 0⟩, 1, []⟩ [3] [3] [3] [0, 3] [1, 3] ⟨"u2net", 0⟩
    rfl rfl rfl rfl rfl rfl rfl rfl

end BgRemover
